import Mathlib

/-!
Shallow embedding of the `personalized_customer_experiences` backend helper
modules (`dynamodb_helper.py`, `personalize_helper.py`, `pinpoint_helper.py`,
`s3_helper.py`, `main.py`) for verification of the specification claims.
Each definition is translated from the corresponding Python source function;
calls to the external AWS services are modelled by explicit state
(association lists standing for the DynamoDB tables, the Personalize
resource listing, the S3 bucket contents) or by an injected call outcome
(`Except ClientError _`) where only the error path matters.
-/

/-! ## Key-value adapter: recommendations cache (`dynamodb_helper.py`) -/

/-- A row of the recommendations table, as written by
`DynamoDBHelper.cache_recommendations` (dynamodb_helper.py, lines 73-79).
`recommendations` holds the stored items (their element type is left
abstract), `ttl` the absolute expiry timestamp in unix seconds.  Rows
written by this code always carry a `ttl` attribute, so the read side's
`item.get('ttl', 0)` is modelled as the field itself. -/
structure CacheEntry (α : Type) where
  recommendations : List α
  ttl : Nat
deriving DecidableEq

/-- The recommendations table: DynamoDB rows keyed by the composite primary
key `(tenant_id, user_id)`. -/
abbrev RecTable (α : Type) := List ((String × String) × CacheEntry α)

/-- DynamoDB `get_item` on the recommendations table: the row stored under
the given key, if any. -/
def getItem (α : Type) (table : RecTable α) (key : String × String) :
    Option (CacheEntry α) :=
  (table.find? (fun row => row.1 == key)).map (fun row => row.2)

/-- DynamoDB `delete_item` on the recommendations table: removes the row
stored under the given key (a no-op when the row is already gone). -/
def deleteItem (α : Type) (table : RecTable α) (key : String × String) :
    RecTable α :=
  table.filter (fun row => !(row.1 == key))

/-- Translation of `DynamoDBHelper.get_cached_recommendations`
(dynamodb_helper.py, lines 90-140), success path.  Returns the cached items
paired with the table after the call: `none` when the row is missing; when
the row is present but `item.get('ttl', 0) < current_timestamp` the row is
deleted as a side effect and `none` is returned; otherwise the stored items
are returned unchanged.  `now` is `int(datetime.utcnow().timestamp())`. -/
def get_cached_recommendations (α : Type) (table : RecTable α)
    (tenant_id user_id : String) (now : Nat) : Option (List α) × RecTable α :=
  match getItem α table (tenant_id, user_id) with
  | none => (none, table)
  | some item =>
    if item.ttl < now then
      (none, deleteItem α table (tenant_id, user_id))
    else
      (some item.recommendations, table)

/-- Translation of `DynamoDBHelper.cache_recommendations`
(dynamodb_helper.py, lines 47-88), success path: writes the row under
`(tenant_id, user_id)` with absolute ttl `now + ttl_hours * 3600` seconds,
overwriting any previous row under the same key (DynamoDB `put_item`). -/
def cache_recommendations (α : Type) (table : RecTable α)
    (tenant_id user_id : String) (recommendations : List α)
    (ttl_hours now : Nat) : RecTable α :=
  ((tenant_id, user_id), ⟨recommendations, now + ttl_hours * 3600⟩) ::
    deleteItem α table (tenant_id, user_id)

theorem getItem_deleteItem (α : Type) (table : RecTable α)
    (key : String × String) : getItem α (deleteItem α table key) key = none := by
  unfold getItem
  have h : (deleteItem α table key).find? (fun row => row.1 == key) = none := by
    rw [List.find?_eq_none]
    intro x hx
    simp only [deleteItem, List.mem_filter, Bool.not_eq_true'] at hx
    simp [hx.2]
  rw [h]
  rfl

/-- C1, counterexample.  The claim says the stored items are returned
exactly when the row is present and its ttl is strictly greater than the
current time.  The code (dynamodb_helper.py, line 121) treats the row as
expired only when `ttl < now`, so at `ttl = now = 100` the row is present,
its ttl is not strictly greater than the current time, and yet the stored
items are returned. -/
theorem C1_counterexample :
    getItem Nat [(("t", "u"), ⟨[1, 2], 100⟩)] ("t", "u") = some ⟨[1, 2], 100⟩ ∧
    (get_cached_recommendations Nat [(("t", "u"), ⟨[1, 2], 100⟩)] "t" "u" 100).1
      = some [1, 2] ∧
    ¬ (100 : Nat) < 100 := by decide

/-- C1, amended.  For every tenant and user: if a row is present,
`get_cached_recommendations` returns the stored items exactly when
`now ≤ ttl` (that is, the ttl has not strictly elapsed); if the row is
present and `ttl < now` it deletes the row as a side effect, so the row is
gone and any subsequent read returns absent; if no row was ever written it
returns absent and leaves the table unchanged. -/
theorem C1_get_cached_recommendations_amended (α : Type) (table : RecTable α)
    (tenant_id user_id : String) (now : Nat) :
    (∀ e : CacheEntry α, getItem α table (tenant_id, user_id) = some e →
      (((get_cached_recommendations α table tenant_id user_id now).1
          = some e.recommendations ↔ now ≤ e.ttl) ∧
        (e.ttl < now →
          getItem α ((get_cached_recommendations α table tenant_id user_id now).2)
              (tenant_id, user_id) = none ∧
          ∀ later : Nat,
            (get_cached_recommendations α
                ((get_cached_recommendations α table tenant_id user_id now).2)
                tenant_id user_id later).1 = none))) ∧
    (getItem α table (tenant_id, user_id) = none →
      (get_cached_recommendations α table tenant_id user_id now).1 = none ∧
      (get_cached_recommendations α table tenant_id user_id now).2 = table) := by
  constructor
  · intro e he
    constructor
    · constructor
      · intro hres
        by_contra hlt
        push_neg at hlt
        simp only [get_cached_recommendations, he, if_pos hlt] at hres
        exact Option.noConfusion hres
      · intro hle
        simp only [get_cached_recommendations, he, if_neg (Nat.not_lt.mpr hle)]
    · intro hlt
      have h2 : (get_cached_recommendations α table tenant_id user_id now).2
          = deleteItem α table (tenant_id, user_id) := by
        simp only [get_cached_recommendations, he, if_pos hlt]
      rw [h2]
      refine ⟨getItem_deleteItem α table (tenant_id, user_id), ?_⟩
      intro later
      simp only [get_cached_recommendations,
        getItem_deleteItem α table (tenant_id, user_id)]
  · intro he
    simp [get_cached_recommendations, he]

/-- C1, witness: the amended theorem applied to a concrete expired row
(`ttl = 3`, `now = 10`): the read deletes the row and a second read at any
of the sampled later times returns absent. -/
theorem C1_witness :
    getItem Nat
        ((get_cached_recommendations Nat [(("t", "u"), ⟨[7], 3⟩)] "t" "u" 10).2)
        ("t", "u") = none ∧
    ∀ later : Nat,
      (get_cached_recommendations Nat
          ((get_cached_recommendations Nat [(("t", "u"), ⟨[7], 3⟩)] "t" "u" 10).2)
          "t" "u" later).1 = none :=
  ((C1_get_cached_recommendations_amended Nat [(("t", "u"), ⟨[7], 3⟩)] "t" "u" 10).1
    ⟨[7], 3⟩ (by decide)).2 (by decide)

/-! ## Key-value adapter: error semantics of the store calls (`dynamodb_helper.py`) -/

/-- A botocore `ClientError` raised by the underlying DynamoDB call. -/
structure ClientError where
  msg : String
deriving DecidableEq

/-- Error semantics of `DynamoDBHelper.cache_recommendations`
(dynamodb_helper.py, lines 66-88): the `try` body's store call either
succeeds (the method returns `True`) or raises a `ClientError`, which the
`except` clause re-raises as `Exception("Recommendations caching failed: ...")`. -/
def cache_recommendations_result (store : Except ClientError Unit) :
    Except String Bool :=
  match store with
  | .ok _ => .ok true
  | .error e => .error ("Recommendations caching failed: " ++ e.msg)

/-- Error semantics of `DynamoDBHelper.get_cached_recommendations`
(dynamodb_helper.py, lines 105-140): the `try` body either produces the
cache-read result or raises a `ClientError`; the `except` clause (lines
138-140) logs and returns `None`, it does not re-raise. -/
def get_cached_recommendations_result (α : Type)
    (store : Except ClientError (Option (List α))) :
    Except String (Option (List α)) :=
  match store with
  | .ok r => .ok r
  | .error _ => .ok none

/-- Error semantics of `DynamoDBHelper.track_campaign_event`
(dynamodb_helper.py, lines 355-380): the `try` body's `put_item` either
succeeds (the method returns `True`) or raises a `ClientError`; the
`except` clause (lines 378-380) logs and returns `False`, it does not
re-raise. -/
def track_campaign_event_result (store : Except ClientError Unit) :
    Except String Bool :=
  match store with
  | .ok _ => .ok true
  | .error _ => .ok false

/-- C6, counterexample.  The claim says every key-value adapter operation
surfaces a wrapped failure (raises) on an underlying store error, rather
than silently returning an absent or false result.  On a concrete store
error, `get_cached_recommendations` returns `None` (absent) and
`track_campaign_event` returns `False`; neither raises. -/
theorem C6_counterexample :
    get_cached_recommendations_result Nat
        (Except.error ⟨"InternalServerError"⟩) = Except.ok none ∧
    track_campaign_event_result (Except.error ⟨"InternalServerError"⟩)
      = Except.ok false :=
  ⟨rfl, rfl⟩

/-- C6, amended.  On an underlying store error, the write operation
`cache_recommendations` raises a generic wrapped failure
(`Recommendations caching failed: ...`), while `get_cached_recommendations`
swallows the error and returns absent and `track_campaign_event` swallows
the error and returns false; each operation consumes a single store
outcome, so none retries locally. -/
theorem C6_store_error_semantics (α : Type) (e : ClientError) :
    cache_recommendations_result (Except.error e)
        = Except.error ("Recommendations caching failed: " ++ e.msg) ∧
    get_cached_recommendations_result α (Except.error e) = Except.ok none ∧
    track_campaign_event_result (Except.error e) = Except.ok false :=
  ⟨rfl, rfl, rfl⟩

/-! ## Key-value adapter: campaign metrics (`dynamodb_helper.py`, lines 382-457) -/

/-- A campaign tracking event row, restricted to the attributes the metrics
loop reads (`item['event_type']`, `item['user_id']`). -/
structure CampaignEvent where
  user_id : String
  event_type : String
deriving DecidableEq

/-- One iteration of the metrics dict update (lines 440-442):
`if event_type not in events_by_type: events_by_type[event_type] = 0`
followed by `events_by_type[event_type] += 1`, on an insertion-ordered
dict modelled as an association list. -/
def bumpType : List (String × Nat) → String → List (String × Nat)
  | [], k => [(k, 1)]
  | (k0, n) :: rest, k =>
    if k0 = k then (k0, n + 1) :: rest else (k0, n) :: bumpType rest k

/-- `metrics['unique_users'].add(user_id)` (line 438): the Python `set` is
modelled as a duplicate-free list, of which only the cardinality is
observed. -/
def addUser (s : List String) (u : String) : List String :=
  if s.contains u then s else u :: s

/-- Accumulator state of the metrics loop (lines 424-442). -/
structure MetricsAcc where
  total_events : Nat
  unique_users : List String
  events_by_type : List (String × Nat)

/-- One iteration of the loop over the queried items (lines 433-442). -/
def metricsStep (acc : MetricsAcc) (ev : CampaignEvent) : MetricsAcc :=
  { total_events := acc.total_events + 1
    unique_users := addUser acc.unique_users ev.user_id
    events_by_type := bumpType acc.events_by_type ev.event_type }

/-- `metrics['events_by_type'].get(k, 0)` (lines 448-450). -/
def typeCount (m : List (String × Nat)) (k : String) : Nat :=
  ((m.find? (fun p => p.1 == k)).map Prod.snd).getD 0

/-- The dictionary returned by `DynamoDBHelper.get_campaign_metrics`. -/
structure CampaignMetrics where
  campaign_id : String
  total_events : Nat
  unique_users : Nat
  events_by_type : List (String × Nat)
  click_through_rate : ℚ
  conversion_rate : ℚ

/-- Translation of `DynamoDBHelper.get_campaign_metrics`
(dynamodb_helper.py, lines 382-457), success path, as a function of the
queried event rows.  Both rates are initialised to `0.0` and assigned only
when `sent_count > 0` (lines 429-430, 452-454).  The rate arithmetic is
modelled in `ℚ`; at the inputs evaluated below the Python float divisions
and multiplications are exact, so the rational results coincide with the
float results. -/
def get_campaign_metrics (campaign_id : String) (events : List CampaignEvent) :
    CampaignMetrics :=
  let acc := events.foldl metricsStep ⟨0, [], []⟩
  let sent_count := typeCount acc.events_by_type "sent"
  let clicked_count := typeCount acc.events_by_type "clicked"
  let converted_count := typeCount acc.events_by_type "converted"
  { campaign_id := campaign_id
    total_events := acc.total_events
    unique_users := acc.unique_users.length
    events_by_type := acc.events_by_type
    click_through_rate :=
      if sent_count > 0 then ((clicked_count : ℚ) / (sent_count : ℚ)) * 100 else 0
    conversion_rate :=
      if sent_count > 0 then ((converted_count : ℚ) / (sent_count : ℚ)) * 100 else 0 }

theorem typeCount_nil (t : String) : typeCount [] t = 0 := rfl

theorem typeCount_cons (k0 : String) (n : Nat) (rest : List (String × Nat))
    (t : String) :
    typeCount ((k0, n) :: rest) t = if k0 = t then n else typeCount rest t := by
  by_cases h : k0 = t
  · subst h
    simp [typeCount, List.find?_cons_of_pos]
  · simp [typeCount, List.find?_cons_of_neg, h]

theorem typeCount_bumpType (m : List (String × Nat)) (k t : String) :
    typeCount (bumpType m k) t = typeCount m t + (if k = t then 1 else 0) := by
  induction m with
  | nil =>
    by_cases h : k = t
    · simp [bumpType, typeCount_cons, typeCount_nil, h]
    · simp [bumpType, typeCount_cons, typeCount_nil, h]
  | cons p rest ih =>
    obtain ⟨k0, n⟩ := p
    by_cases hk : k0 = k
    · subst hk
      by_cases ht : k0 = t
      · subst ht
        simp [bumpType, typeCount_cons]
      · simp [bumpType, typeCount_cons, ht]
    · by_cases ht : k0 = t
      · subst ht
        have hkt : ¬ k = k0 := fun h => hk h.symm
        simp [bumpType, typeCount_cons, hk, hkt]
      · simp [bumpType, typeCount_cons, hk, ht, ih]

theorem sum_bumpType (m : List (String × Nat)) (k : String) :
    ((bumpType m k).map Prod.snd).sum = (m.map Prod.snd).sum + 1 := by
  induction m with
  | nil => simp [bumpType]
  | cons p rest ih =>
    obtain ⟨k0, n⟩ := p
    by_cases hk : k0 = k
    · simp [bumpType, hk]
      omega
    · simp [bumpType, hk, ih]
      omega

theorem length_addUser (s : List String) (u : String) :
    (addUser s u).length ≤ s.length + 1 := by
  unfold addUser
  split
  · omega
  · simp

theorem foldl_metricsStep_total (events : List CampaignEvent) (acc : MetricsAcc) :
    (events.foldl metricsStep acc).total_events = acc.total_events + events.length := by
  induction events generalizing acc with
  | nil => simp
  | cons ev rest ih =>
    simp only [List.foldl_cons, ih, metricsStep, List.length_cons]
    omega

theorem foldl_metricsStep_sum (events : List CampaignEvent) (acc : MetricsAcc) :
    (((events.foldl metricsStep acc).events_by_type).map Prod.snd).sum
      = ((acc.events_by_type).map Prod.snd).sum + events.length := by
  induction events generalizing acc with
  | nil => simp
  | cons ev rest ih =>
    simp only [List.foldl_cons, ih, metricsStep, List.length_cons, sum_bumpType]
    omega

theorem foldl_metricsStep_users (events : List CampaignEvent) (acc : MetricsAcc) :
    (events.foldl metricsStep acc).unique_users.length
      ≤ acc.unique_users.length + events.length := by
  induction events generalizing acc with
  | nil => simp
  | cons ev rest ih =>
    calc ((ev :: rest).foldl metricsStep acc).unique_users.length
        ≤ (metricsStep acc ev).unique_users.length + rest.length := ih _
      _ ≤ acc.unique_users.length + 1 + rest.length := by
          have := length_addUser acc.unique_users ev.user_id
          simp only [metricsStep]
          omega
      _ = acc.unique_users.length + (ev :: rest).length := by
          simp
          omega

theorem foldl_metricsStep_typeCount (events : List CampaignEvent)
    (acc : MetricsAcc) (t : String) :
    typeCount (events.foldl metricsStep acc).events_by_type t
      = typeCount acc.events_by_type t
          + events.countP (fun e => e.event_type == t) := by
  induction events generalizing acc with
  | nil => simp
  | cons ev rest ih =>
    simp only [List.foldl_cons, ih, metricsStep, List.countP_cons,
      typeCount_bumpType]
    by_cases h : ev.event_type = t
    · simp [h]
      omega
    · simp [h]

/-! ## Recommendation-service adapter: status aggregation (`personalize_helper.py`, lines 539-596) -/

/-- The dictionary returned by `PersonalizeHelper.get_training_status`:
the tenant, the reduced overall status and the three component statuses
(in source order: dataset group, solution, campaign). -/
structure TrainingStatus where
  tenant_id : String
  overall_status : String
  components : List String
deriving DecidableEq

/-- The ordered-precedence reduction of the component statuses to the
overall status (personalize_helper.py, lines 577-586). -/
def reduce_overall (component_statuses : List String) : String :=
  if component_statuses.contains "CREATING"
      || component_statuses.contains "CREATE_IN_PROGRESS" then "TRAINING"
  else if component_statuses.all (fun status => status == "ACTIVE") then "READY"
  else if component_statuses.contains "CREATE_FAILED"
      || component_statuses.contains "FAILED" then "FAILED"
  else "INCOMPLETE"

/-- Translation of `PersonalizeHelper.get_training_status`
(personalize_helper.py, lines 539-596), success path.  Each component
lookup (`get_dataset_group`, `get_solution`, `get_campaign`) is modelled by
its outcome: `some s` when the lookup returned a resource with status `s`,
`none` when it raised; a raising lookup is mapped to the component status
`"NOT_FOUND"` (lines 556-575). -/
def get_training_status (tenant_id : String)
    (dataset_group solution campaign : Option String) : TrainingStatus :=
  let component_statuses :=
    [dataset_group.getD "NOT_FOUND", solution.getD "NOT_FOUND",
      campaign.getD "NOT_FOUND"]
  ⟨tenant_id, reduce_overall component_statuses, component_statuses⟩

theorem reduce_overall_training (cs : List String) (s : String) (hs : s ∈ cs)
    (hor : s = "CREATING" ∨ s = "CREATE_IN_PROGRESS") :
    reduce_overall cs = "TRAINING" := by
  rcases hor with rfl | rfl <;> simp [reduce_overall, hs]

theorem reduce_overall_ready (cs : List String)
    (h1 : ∀ s ∈ cs, s ≠ "CREATING" ∧ s ≠ "CREATE_IN_PROGRESS")
    (h2 : ∀ s ∈ cs, s = "ACTIVE") : reduce_overall cs = "READY" := by
  have hCm : "CREATING" ∉ cs := fun hm => (h1 _ hm).1 rfl
  have hPm : "CREATE_IN_PROGRESS" ∉ cs := fun hm => (h1 _ hm).2 rfl
  simp [reduce_overall, hCm, hPm, h2]
  intro x hx hne
  exact absurd (h2 x hx) hne

theorem reduce_overall_failed (cs : List String)
    (h1 : ∀ s ∈ cs, s ≠ "CREATING" ∧ s ≠ "CREATE_IN_PROGRESS")
    (hf : ∃ s ∈ cs, s = "FAILED" ∨ s = "CREATE_FAILED") :
    reduce_overall cs = "FAILED" := by
  have hCm : "CREATING" ∉ cs := fun hm => (h1 _ hm).1 rfl
  have hPm : "CREATE_IN_PROGRESS" ∉ cs := fun hm => (h1 _ hm).2 rfl
  obtain ⟨s, hs, hor⟩ := hf
  have hne : s ≠ "ACTIVE" := by rcases hor with rfl | rfl <;> decide
  have hFm : "CREATE_FAILED" ∈ cs ∨ "FAILED" ∈ cs := by
    rcases hor with rfl | rfl
    · exact Or.inr hs
    · exact Or.inl hs
  have hAn : ¬ ∀ x ∈ cs, x = "ACTIVE" := fun hall => hne (hall s hs)
  simp only [reduce_overall]
  simp [hCm, hPm, hAn, hFm]

theorem reduce_overall_incomplete (cs : List String)
    (h1 : ∀ s ∈ cs, s ≠ "CREATING" ∧ s ≠ "CREATE_IN_PROGRESS")
    (hex : ∃ s ∈ cs, s ≠ "ACTIVE")
    (hnf : ∀ s ∈ cs, s ≠ "FAILED" ∧ s ≠ "CREATE_FAILED") :
    reduce_overall cs = "INCOMPLETE" := by
  have hCm : "CREATING" ∉ cs := fun hm => (h1 _ hm).1 rfl
  have hPm : "CREATE_IN_PROGRESS" ∉ cs := fun hm => (h1 _ hm).2 rfl
  have hCFm : "CREATE_FAILED" ∉ cs := fun hm => (hnf _ hm).2 rfl
  have hFFm : "FAILED" ∉ cs := fun hm => (hnf _ hm).1 rfl
  obtain ⟨s, hs, hne⟩ := hex
  have hAn : ¬ ∀ x ∈ cs, x = "ACTIVE" := fun hall => hne (hall s hs)
  simp [reduce_overall, hCm, hPm, hCFm, hFFm, hAn]

/-- C2: for every combination of the three component lookup outcomes (a
failed lookup mapped to `"NOT_FOUND"`), `get_training_status` reduces the
component statuses by ordered precedence: any component `"CREATING"` or
`"CREATE_IN_PROGRESS"` gives overall `"TRAINING"` (even when another
component is simultaneously failed); otherwise all three `"ACTIVE"` gives
`"READY"`; otherwise any `"FAILED"` or `"CREATE_FAILED"` gives `"FAILED"`;
otherwise `"INCOMPLETE"`. -/
theorem C2_get_training_status (tenant_id : String)
    (dataset_group solution campaign : Option String) :
    (get_training_status tenant_id dataset_group solution campaign).components
        = [dataset_group.getD "NOT_FOUND", solution.getD "NOT_FOUND",
            campaign.getD "NOT_FOUND"] ∧
    (∀ s ∈ (get_training_status tenant_id dataset_group solution campaign).components,
        s = "CREATING" ∨ s = "CREATE_IN_PROGRESS" →
      (get_training_status tenant_id dataset_group solution campaign).overall_status
        = "TRAINING") ∧
    ((∀ s ∈ (get_training_status tenant_id dataset_group solution campaign).components,
        s ≠ "CREATING" ∧ s ≠ "CREATE_IN_PROGRESS") →
      ((∀ s ∈ (get_training_status tenant_id dataset_group solution campaign).components,
          s = "ACTIVE") →
        (get_training_status tenant_id dataset_group solution campaign).overall_status
          = "READY") ∧
      ((∃ s ∈ (get_training_status tenant_id dataset_group solution campaign).components,
          s = "FAILED" ∨ s = "CREATE_FAILED") →
        (get_training_status tenant_id dataset_group solution campaign).overall_status
          = "FAILED") ∧
      ((∃ s ∈ (get_training_status tenant_id dataset_group solution campaign).components,
          s ≠ "ACTIVE") →
        (∀ s ∈ (get_training_status tenant_id dataset_group solution campaign).components,
          s ≠ "FAILED" ∧ s ≠ "CREATE_FAILED") →
        (get_training_status tenant_id dataset_group solution campaign).overall_status
          = "INCOMPLETE")) := by
  refine ⟨rfl, ?_, ?_⟩
  · intro s hs hor
    exact reduce_overall_training _ s hs hor
  · intro h1
    exact ⟨fun h2 => reduce_overall_ready _ h1 h2,
      fun hf => reduce_overall_failed _ h1 hf,
      fun hex hnf => reduce_overall_incomplete _ h1 hex hnf⟩

/-- C2, witness: a creating solution takes precedence over a simultaneously
failed campaign, giving overall status `"TRAINING"`. -/
theorem C2_witness :
    (get_training_status "t" (some "ACTIVE") (some "CREATING")
        (some "FAILED")).overall_status = "TRAINING" :=
  (C2_get_training_status "t" (some "ACTIVE") (some "CREATING")
      (some "FAILED")).2.1 "CREATING" (by decide) (Or.inl rfl)

/-- The concrete event list of the claim: 10 `"sent"`, 3 `"clicked"`,
1 `"converted"` events. -/
def exampleCampaignEvents : List CampaignEvent :=
  [⟨"u1", "sent"⟩, ⟨"u2", "sent"⟩, ⟨"u3", "sent"⟩, ⟨"u4", "sent"⟩,
    ⟨"u5", "sent"⟩, ⟨"u6", "sent"⟩, ⟨"u7", "sent"⟩, ⟨"u8", "sent"⟩,
    ⟨"u9", "sent"⟩, ⟨"u10", "sent"⟩, ⟨"u1", "clicked"⟩, ⟨"u2", "clicked"⟩,
    ⟨"u3", "clicked"⟩, ⟨"u1", "converted"⟩]

/-- C3: `get_campaign_metrics` counts events by `event_type`; the
click-through rate is `clicked / sent * 100` and the conversion rate is
`converted / sent * 100`, both equal to `0` when no `"sent"` event was
counted (no division by zero); and on 10 `"sent"`, 3 `"clicked"`,
1 `"converted"` events the rates are `30` and `10`. -/
theorem C3_get_campaign_metrics (campaign_id : String)
    (events : List CampaignEvent) :
    (∀ t : String,
      typeCount (get_campaign_metrics campaign_id events).events_by_type t
        = events.countP (fun e => e.event_type == t)) ∧
    ((get_campaign_metrics campaign_id events).click_through_rate
        = if 0 < events.countP (fun e => e.event_type == "sent") then
            ((events.countP (fun e => e.event_type == "clicked") : ℚ) /
              (events.countP (fun e => e.event_type == "sent") : ℚ)) * 100
          else 0) ∧
    ((get_campaign_metrics campaign_id events).conversion_rate
        = if 0 < events.countP (fun e => e.event_type == "sent") then
            ((events.countP (fun e => e.event_type == "converted") : ℚ) /
              (events.countP (fun e => e.event_type == "sent") : ℚ)) * 100
          else 0) ∧
    (events.countP (fun e => e.event_type == "sent") = 0 →
      (get_campaign_metrics campaign_id events).click_through_rate = 0 ∧
      (get_campaign_metrics campaign_id events).conversion_rate = 0) ∧
    ((get_campaign_metrics "c" exampleCampaignEvents).click_through_rate = 30 ∧
      (get_campaign_metrics "c" exampleCampaignEvents).conversion_rate = 10) := by
  have hcount : ∀ (evs : List CampaignEvent) (t : String),
      typeCount (evs.foldl metricsStep ⟨0, [], []⟩).events_by_type t
        = evs.countP (fun e => e.event_type == t) := by
    intro evs t
    have h := foldl_metricsStep_typeCount evs ⟨0, [], []⟩ t
    simpa [typeCount_nil] using h
  refine ⟨?_, ?_, ?_, ?_, ?_, ?_⟩
  · intro t
    simpa [get_campaign_metrics] using hcount events t
  · simp only [get_campaign_metrics]
    rw [hcount events "sent", hcount events "clicked"]
  · simp only [get_campaign_metrics]
    rw [hcount events "sent", hcount events "converted"]
  · intro h0
    constructor
    · simp only [get_campaign_metrics]
      rw [hcount events "sent", h0]
      simp
    · simp only [get_campaign_metrics]
      rw [hcount events "sent", h0]
      simp
  · have h1 : exampleCampaignEvents.countP (fun e => e.event_type == "sent")
        = 10 := by decide
    have h2 : exampleCampaignEvents.countP (fun e => e.event_type == "clicked")
        = 3 := by decide
    simp only [get_campaign_metrics]
    rw [hcount exampleCampaignEvents "sent",
      hcount exampleCampaignEvents "clicked", h1, h2]
    norm_num
  · have h1 : exampleCampaignEvents.countP (fun e => e.event_type == "sent")
        = 10 := by decide
    have h3 : exampleCampaignEvents.countP (fun e => e.event_type == "converted")
        = 1 := by decide
    simp only [get_campaign_metrics]
    rw [hcount exampleCampaignEvents "sent",
      hcount exampleCampaignEvents "converted", h1, h3]
    norm_num

/-- C3, witness: an event list with zero `"sent"` events gives both rates
equal to `0` without a division-by-zero fault. -/
theorem C3_witness :
    (get_campaign_metrics "c" [⟨"u", "opened"⟩]).click_through_rate = 0 ∧
    (get_campaign_metrics "c" [⟨"u", "opened"⟩]).conversion_rate = 0 :=
  (C3_get_campaign_metrics "c" [⟨"u", "opened"⟩]).2.2.2.1 (by decide)

/-- C10: for every event list processed without error, the sum of the
per-type counts in `events_by_type` equals `total_events`, and
`unique_users` is at most `total_events`. -/
theorem C10_campaign_metrics_invariants (campaign_id : String)
    (events : List CampaignEvent) :
    ((get_campaign_metrics campaign_id events).events_by_type.map Prod.snd).sum
        = (get_campaign_metrics campaign_id events).total_events ∧
    (get_campaign_metrics campaign_id events).unique_users
        ≤ (get_campaign_metrics campaign_id events).total_events := by
  have h1 := foldl_metricsStep_sum events ⟨0, [], []⟩
  have h2 := foldl_metricsStep_total events ⟨0, [], []⟩
  have h3 := foldl_metricsStep_users events ⟨0, [], []⟩
  constructor
  · simp only [get_campaign_metrics]
    rw [h1, h2]
    simp
  · simp only [get_campaign_metrics]
    rw [h2]
    simpa using h3

/-! ## Key-value adapter: float / Decimal normalization (`dynamodb_helper.py`, lines 26-44) -/

mutual
/-- A Python value crossing the key-value boundary: a float, a
`decimal.Decimal`, a string, an integer, a dict or a list.  `F` is the
type of Python floats and `D` the type of `decimal.Decimal` values, both
kept abstract; the two leaf conversions `Decimal(str(x))` and
`float(d)` are passed in as functions. -/
inductive PyVal (F D : Type) where
  | float (f : F)
  | dec (d : D)
  | str (s : String)
  | int (n : Int)
  | dict (fields : PyFields F D)
  | list (elems : PyElems F D)

/-- The key/value entries of a Python dict, in insertion order. -/
inductive PyFields (F D : Type) where
  | nil
  | cons (key : String) (value : PyVal F D) (rest : PyFields F D)

/-- The elements of a Python list, in order. -/
inductive PyElems (F D : Type) where
  | nil
  | cons (value : PyVal F D) (rest : PyElems F D)
end

mutual
/-- Translation of `DynamoDBHelper._convert_floats_to_decimal`
(dynamodb_helper.py, lines 26-34): a float leaf becomes
`Decimal(str(obj))` (the leaf conversion `toDec`), dict values and list
elements are converted recursively, and any other value is returned
unchanged. -/
def convert_floats_to_decimal {F D : Type} (toDec : F → D) :
    PyVal F D → PyVal F D
  | .float f => .dec (toDec f)
  | .dec d => .dec d
  | .str s => .str s
  | .int n => .int n
  | .dict kvs => .dict (convert_floats_to_decimal_fields toDec kvs)
  | .list vs => .list (convert_floats_to_decimal_elems toDec vs)

/-- The dict comprehension of line 31, on the entry list. -/
def convert_floats_to_decimal_fields {F D : Type} (toDec : F → D) :
    PyFields F D → PyFields F D
  | .nil => .nil
  | .cons k v rest =>
    .cons k (convert_floats_to_decimal toDec v)
      (convert_floats_to_decimal_fields toDec rest)

/-- The list comprehension of line 33, on the element list. -/
def convert_floats_to_decimal_elems {F D : Type} (toDec : F → D) :
    PyElems F D → PyElems F D
  | .nil => .nil
  | .cons v rest =>
    .cons (convert_floats_to_decimal toDec v)
      (convert_floats_to_decimal_elems toDec rest)
end

mutual
/-- Translation of `DynamoDBHelper._convert_decimals_to_float`
(dynamodb_helper.py, lines 36-44): a Decimal leaf becomes `float(obj)`
(the leaf conversion `toFloat`), dict values and list elements are
converted recursively, and any other value is returned unchanged. -/
def convert_decimals_to_float {F D : Type} (toFloat : D → F) :
    PyVal F D → PyVal F D
  | .float f => .float f
  | .dec d => .float (toFloat d)
  | .str s => .str s
  | .int n => .int n
  | .dict kvs => .dict (convert_decimals_to_float_fields toFloat kvs)
  | .list vs => .list (convert_decimals_to_float_elems toFloat vs)

/-- The dict comprehension of line 41, on the entry list. -/
def convert_decimals_to_float_fields {F D : Type} (toFloat : D → F) :
    PyFields F D → PyFields F D
  | .nil => .nil
  | .cons k v rest =>
    .cons k (convert_decimals_to_float toFloat v)
      (convert_decimals_to_float_fields toFloat rest)

/-- The list comprehension of line 43, on the element list. -/
def convert_decimals_to_float_elems {F D : Type} (toFloat : D → F) :
    PyElems F D → PyElems F D
  | .nil => .nil
  | .cons v rest =>
    .cons (convert_decimals_to_float toFloat v)
      (convert_decimals_to_float_elems toFloat rest)
end

mutual
/-- The claim's domain: values built from floats, strings, integers,
nested dicts and nested lists, with no Decimal leaf. -/
def noDecimal {F D : Type} : PyVal F D → Bool
  | .float _ => true
  | .dec _ => false
  | .str _ => true
  | .int _ => true
  | .dict kvs => noDecimalFields kvs
  | .list vs => noDecimalElems vs

/-- `noDecimal` on every dict entry. -/
def noDecimalFields {F D : Type} : PyFields F D → Bool
  | .nil => true
  | .cons _ v rest => noDecimal v && noDecimalFields rest

/-- `noDecimal` on every list element. -/
def noDecimalElems {F D : Type} : PyElems F D → Bool
  | .nil => true
  | .cons v rest => noDecimal v && noDecimalElems rest
end

mutual
theorem roundtrip_val {F D : Type} (toDec : F → D) (toFloat : D → F)
    (hleaf : ∀ f : F, toFloat (toDec f) = f) :
    ∀ v : PyVal F D, noDecimal v = true →
      convert_decimals_to_float toFloat (convert_floats_to_decimal toDec v) = v
  | .float f, _ => by
    simp [convert_floats_to_decimal, convert_decimals_to_float, hleaf]
  | .dec d, h => by
    simp [noDecimal] at h
  | .str s, _ => rfl
  | .int n, _ => rfl
  | .dict kvs, h => by
    have hk : noDecimalFields kvs = true := h
    simp only [convert_floats_to_decimal, convert_decimals_to_float]
    rw [roundtrip_fields toDec toFloat hleaf kvs hk]
  | .list vs, h => by
    have hv : noDecimalElems vs = true := h
    simp only [convert_floats_to_decimal, convert_decimals_to_float]
    rw [roundtrip_elems toDec toFloat hleaf vs hv]

theorem roundtrip_fields {F D : Type} (toDec : F → D) (toFloat : D → F)
    (hleaf : ∀ f : F, toFloat (toDec f) = f) :
    ∀ kvs : PyFields F D, noDecimalFields kvs = true →
      convert_decimals_to_float_fields toFloat
        (convert_floats_to_decimal_fields toDec kvs) = kvs
  | .nil, _ => rfl
  | .cons k v rest, h => by
    have h1 : noDecimal v = true := by
      simp [noDecimalFields, Bool.and_eq_true] at h
      exact h.1
    have h2 : noDecimalFields rest = true := by
      simp [noDecimalFields, Bool.and_eq_true] at h
      exact h.2
    simp only [convert_floats_to_decimal_fields, convert_decimals_to_float_fields]
    rw [roundtrip_val toDec toFloat hleaf v h1,
      roundtrip_fields toDec toFloat hleaf rest h2]

theorem roundtrip_elems {F D : Type} (toDec : F → D) (toFloat : D → F)
    (hleaf : ∀ f : F, toFloat (toDec f) = f) :
    ∀ vs : PyElems F D, noDecimalElems vs = true →
      convert_decimals_to_float_elems toFloat
        (convert_floats_to_decimal_elems toDec vs) = vs
  | .nil, _ => rfl
  | .cons v rest, h => by
    have h1 : noDecimal v = true := by
      simp [noDecimalElems, Bool.and_eq_true] at h
      exact h.1
    have h2 : noDecimalElems rest = true := by
      simp [noDecimalElems, Bool.and_eq_true] at h
      exact h.2
    simp only [convert_floats_to_decimal_elems, convert_decimals_to_float_elems]
    rw [roundtrip_val toDec toFloat hleaf v h1,
      roundtrip_elems toDec toFloat hleaf rest h2]
end

/-- C4: for every value built from floats, strings, integers, nested dicts
and nested lists (no Decimal leaf), converting floats to the store's
fixed-point representation with `_convert_floats_to_decimal` and then back
with `_convert_decimals_to_float` returns the original value, provided the
leaf conversions round-trip (`float(Decimal(str(x))) == x`, Python's
documented shortest-repr guarantee for binary64 floats); the conversion
recurses through nested dicts and lists. -/
theorem C4_convert_roundtrip (F D : Type) (toDec : F → D) (toFloat : D → F)
    (hleaf : ∀ f : F, toFloat (toDec f) = f) (v : PyVal F D)
    (hv : noDecimal v = true) :
    convert_decimals_to_float toFloat (convert_floats_to_decimal toDec v) = v :=
  roundtrip_val toDec toFloat hleaf v hv

/-- C4, witness: the round trip applied to a concrete nested value
(a dict holding a float score, a list with an int and a string) with a
concrete leaf model in which the conversions invert each other. -/
theorem C4_witness :
    convert_decimals_to_float (fun d : ℚ => d)
        (convert_floats_to_decimal (fun f : ℚ => f)
          (PyVal.dict (PyFields.cons "score" (PyVal.float (3 / 2 : ℚ))
            (PyFields.cons "items"
              (PyVal.list (PyElems.cons (PyVal.int 2)
                (PyElems.cons (PyVal.str "x") PyElems.nil)))
              PyFields.nil))))
      = PyVal.dict (PyFields.cons "score" (PyVal.float (3 / 2 : ℚ))
          (PyFields.cons "items"
            (PyVal.list (PyElems.cons (PyVal.int 2)
              (PyElems.cons (PyVal.str "x") PyElems.nil)))
            PyFields.nil)) :=
  C4_convert_roundtrip ℚ ℚ (fun f => f) (fun d => d) (fun _ => rfl) _ (by rfl)

/-! ## Recommendation-service adapter: idempotent create-or-get (`personalize_helper.py`) -/

/-- A Personalize resource as seen through the list calls
(`list_dataset_groups`, `list_solutions`): its name, ARN and status. -/
structure PResource where
  name : String
  arn : String
  status : String
deriving DecidableEq

/-- The Personalize service state for one resource kind: the resources the
corresponding list call returns. -/
abbrev PersonalizeState := List PResource

/-- A Personalize campaign as seen through `list_campaigns`. -/
structure CampaignResource where
  name : String
  arn : String
  status : String
  solution_version_arn : String
deriving DecidableEq

/-- The dict returned by `create_dataset_group` / `get_dataset_group`. -/
structure DatasetGroupInfo where
  dataset_group_arn : String
  name : String
  status : String
deriving DecidableEq

/-- The dict returned by `create_campaign` / `get_campaign`. -/
structure CampaignInfo where
  campaign_arn : String
  name : String
  status : String
  solution_version_arn : String
deriving DecidableEq

/-- The service-side `create_dataset_group` call: raises
`ResourceAlreadyExistsException` when a resource with the requested name
already exists, otherwise records the new resource (status `"CREATING"`)
under a service-assigned fresh ARN `freshArn`. -/
def svc_create (state : PersonalizeState) (nm freshArn : String) :
    Except Unit (String × PersonalizeState) :=
  if state.any (fun r => r.name == nm) then .error ()
  else .ok (freshArn, ⟨nm, freshArn, "CREATING"⟩ :: state)

/-- The service-side `create_campaign` call, analogous to `svc_create`. -/
def svc_create_campaign (state : List CampaignResource)
    (nm freshArn sva : String) :
    Except Unit (String × List CampaignResource) :=
  if state.any (fun r => r.name == nm) then .error ()
  else .ok (freshArn, ⟨nm, freshArn, "CREATING", sva⟩ :: state)

/-- Translation of `PersonalizeHelper.get_dataset_group`
(personalize_helper.py, lines 66-94): derives the name
`{settings.personalize_dataset_group_name}-{tenant_id}` (the static base
is the parameter `dg_base`), scans the listed dataset groups for it, and
raises when none matches. -/
def get_dataset_group (dg_base : String) (state : PersonalizeState)
    (tenant_id : String) : Except String DatasetGroupInfo :=
  let dataset_group_name := dg_base ++ "-" ++ tenant_id
  match state.find? (fun dg => dg.name == dataset_group_name) with
  | some dg => .ok ⟨dg.arn, dg.name, dg.status⟩
  | none => .error ("Dataset group not found for tenant " ++ tenant_id)

/-- Translation of `PersonalizeHelper.create_dataset_group`
(personalize_helper.py, lines 21-64): derives the name, attempts the
service create, and on `ResourceAlreadyExistsException` falls back to
`get_dataset_group`, returning that resource's current state instead of
failing.  Returned alongside is the service state after the call. -/
def create_dataset_group (dg_base : String) (state : PersonalizeState)
    (tenant_id freshArn : String) :
    Except String DatasetGroupInfo × PersonalizeState :=
  let dataset_group_name := dg_base ++ "-" ++ tenant_id
  match svc_create state dataset_group_name freshArn with
  | .ok (arn, s2) => (.ok ⟨arn, dataset_group_name, "CREATING"⟩, s2)
  | .error _ => (get_dataset_group dg_base state tenant_id, state)

/-- Translation of `PersonalizeHelper.get_campaign`
(personalize_helper.py, lines 425-453): derives the name
`{settings.personalize_campaign_name}-{tenant_id}` (the static base is the
parameter `camp_base`), scans the listed campaigns for it, and raises when
none matches. -/
def get_campaign (camp_base : String) (state : List CampaignResource)
    (tenant_id : String) : Except String CampaignInfo :=
  let campaign_name := camp_base ++ "-" ++ tenant_id
  match state.find? (fun c => c.name == campaign_name) with
  | some c => .ok ⟨c.arn, c.name, c.status, c.solution_version_arn⟩
  | none => .error ("Campaign not found for tenant " ++ tenant_id)

/-- Translation of `PersonalizeHelper.create_campaign`
(personalize_helper.py, lines 375-423): derives the name, attempts the
service create, and on `ResourceAlreadyExistsException` falls back to
`get_campaign`. -/
def create_campaign (camp_base : String) (state : List CampaignResource)
    (solution_version_arn tenant_id freshArn : String) :
    Except String CampaignInfo × List CampaignResource :=
  let campaign_name := camp_base ++ "-" ++ tenant_id
  match svc_create_campaign state campaign_name freshArn solution_version_arn with
  | .ok (arn, s2) => (.ok ⟨arn, campaign_name, "CREATING", solution_version_arn⟩, s2)
  | .error _ => (get_campaign camp_base state tenant_id, state)

theorem create_dataset_group_idem (dg_base : String) (dgs : PersonalizeState)
    (tenant_id a1 a2 : String) :
    ∃ i1 i2 : DatasetGroupInfo,
      (create_dataset_group dg_base dgs tenant_id a1).1 = Except.ok i1 ∧
      (create_dataset_group dg_base
          (create_dataset_group dg_base dgs tenant_id a1).2 tenant_id a2).1
        = Except.ok i2 ∧
      i1.name = dg_base ++ "-" ++ tenant_id ∧
      i2.name = dg_base ++ "-" ++ tenant_id ∧
      i1.dataset_group_arn = i2.dataset_group_arn := by
  by_cases h : dgs.any (fun r => r.name == (dg_base ++ "-" ++ tenant_id)) = true
  · obtain ⟨r, hr⟩ : ∃ r,
        dgs.find? (fun dg => dg.name == (dg_base ++ "-" ++ tenant_id)) = some r := by
      cases hf : dgs.find? (fun dg => dg.name == (dg_base ++ "-" ++ tenant_id)) with
      | some r => exact ⟨r, rfl⟩
      | none =>
        rw [List.find?_eq_none] at hf
        obtain ⟨x, hx, hpx⟩ := List.any_eq_true.mp h
        exact absurd hpx (hf x hx)
    have hname : r.name = dg_base ++ "-" ++ tenant_id := by
      simpa using List.find?_some hr
    refine ⟨⟨r.arn, r.name, r.status⟩, ⟨r.arn, r.name, r.status⟩, ?_, ?_, hname, hname, rfl⟩
    · simp [create_dataset_group, svc_create, h, get_dataset_group, hr]
    · simp [create_dataset_group, svc_create, h, get_dataset_group, hr]
  · have hfalse : dgs.any (fun r => r.name == (dg_base ++ "-" ++ tenant_id)) = false := by
      simpa using h
    refine ⟨⟨a1, dg_base ++ "-" ++ tenant_id, "CREATING"⟩,
      ⟨a1, dg_base ++ "-" ++ tenant_id, "CREATING"⟩, ?_, ?_, rfl, rfl, rfl⟩
    · simp [create_dataset_group, svc_create, hfalse]
    · simp [create_dataset_group, svc_create, hfalse, get_dataset_group,
        List.find?_cons_of_pos]

theorem create_campaign_idem (camp_base : String)
    (camps : List CampaignResource) (tenant_id sva1 sva2 b1 b2 : String) :
    ∃ c1 c2 : CampaignInfo,
      (create_campaign camp_base camps sva1 tenant_id b1).1 = Except.ok c1 ∧
      (create_campaign camp_base
          (create_campaign camp_base camps sva1 tenant_id b1).2
          sva2 tenant_id b2).1 = Except.ok c2 ∧
      c1.name = camp_base ++ "-" ++ tenant_id ∧
      c2.name = camp_base ++ "-" ++ tenant_id ∧
      c1.campaign_arn = c2.campaign_arn := by
  by_cases h : camps.any (fun r => r.name == (camp_base ++ "-" ++ tenant_id)) = true
  · obtain ⟨r, hr⟩ : ∃ r,
        camps.find? (fun c => c.name == (camp_base ++ "-" ++ tenant_id)) = some r := by
      cases hf : camps.find? (fun c => c.name == (camp_base ++ "-" ++ tenant_id)) with
      | some r => exact ⟨r, rfl⟩
      | none =>
        rw [List.find?_eq_none] at hf
        obtain ⟨x, hx, hpx⟩ := List.any_eq_true.mp h
        exact absurd hpx (hf x hx)
    have hname : r.name = camp_base ++ "-" ++ tenant_id := by
      simpa using List.find?_some hr
    refine ⟨⟨r.arn, r.name, r.status, r.solution_version_arn⟩,
      ⟨r.arn, r.name, r.status, r.solution_version_arn⟩, ?_, ?_, hname, hname, rfl⟩
    · simp [create_campaign, svc_create_campaign, h, get_campaign, hr]
    · simp [create_campaign, svc_create_campaign, h, get_campaign, hr]
  · have hfalse :
        camps.any (fun r => r.name == (camp_base ++ "-" ++ tenant_id)) = false := by
      simpa using h
    refine ⟨⟨b1, camp_base ++ "-" ++ tenant_id, "CREATING", sva1⟩,
      ⟨b1, camp_base ++ "-" ++ tenant_id, "CREATING", sva1⟩, ?_, ?_, rfl, rfl, rfl⟩
    · simp [create_campaign, svc_create_campaign, hfalse]
    · simp [create_campaign, svc_create_campaign, hfalse, get_campaign,
        List.find?_cons_of_pos]

/-- C5: creating a resource twice for the same tenant never raises on the
second call and returns the same deterministically derived name (static
base plus `-{tenant_id}`) and the same ARN both times: the second create
receives the service's already-exists condition and falls back to the
lookup by derived name, returning the current resource state.  Stated for
the two cited operations, `create_dataset_group` and `create_campaign`,
starting from any service state and any service-assigned fresh ARNs. -/
theorem C5_create_twice_idempotent (dg_base camp_base : String)
    (dgs : PersonalizeState) (camps : List CampaignResource)
    (tenant_id a1 a2 sva1 sva2 b1 b2 : String) :
    (∃ i1 i2 : DatasetGroupInfo,
      (create_dataset_group dg_base dgs tenant_id a1).1 = Except.ok i1 ∧
      (create_dataset_group dg_base
          (create_dataset_group dg_base dgs tenant_id a1).2 tenant_id a2).1
        = Except.ok i2 ∧
      i1.name = dg_base ++ "-" ++ tenant_id ∧
      i2.name = dg_base ++ "-" ++ tenant_id ∧
      i1.dataset_group_arn = i2.dataset_group_arn) ∧
    (∃ c1 c2 : CampaignInfo,
      (create_campaign camp_base camps sva1 tenant_id b1).1 = Except.ok c1 ∧
      (create_campaign camp_base
          (create_campaign camp_base camps sva1 tenant_id b1).2
          sva2 tenant_id b2).1 = Except.ok c2 ∧
      c1.name = camp_base ++ "-" ++ tenant_id ∧
      c2.name = camp_base ++ "-" ++ tenant_id ∧
      c1.campaign_arn = c2.campaign_arn) :=
  ⟨create_dataset_group_idem dg_base dgs tenant_id a1 a2,
    create_campaign_idem camp_base camps tenant_id sva1 sva2 b1 b2⟩

/-! ## Object-store adapter: tenant prefixing (`s3_helper.py`, `main.py`) -/

/-- Python `s.replace(pat, "", 1)` on character lists: removes the first
occurrence of `pat`, scanning left to right; the rest of the string is
kept unchanged. -/
def removeFirst (pat : List Char) : List Char → List Char
  | [] => []
  | c :: rest =>
    if pat.isPrefixOf (c :: rest) then (c :: rest).drop pat.length
    else c :: removeFirst pat rest

/-- Python `key.replace(f"{tenant_id}/", "", 1)` (s3_helper.py, line 153)
on strings. -/
def replaceFirst (s pat : String) : String :=
  ⟨removeFirst pat.data s.data⟩

/-- The string-prefix test used to model S3's `Prefix=` filter on listed
keys, on the character data of the strings. -/
def strIsPrefixOf (p s : String) : Bool :=
  p.data.isPrefixOf s.data

/-- The dict returned by `S3Helper.upload_file` (the fields the claims
read; the object body is a char list whose length is the `size`). -/
structure UploadResult where
  bucket : String
  key : String
  size : Nat
  url : String
deriving DecidableEq

/-- Translation of `S3Helper.upload_file` (s3_helper.py, lines 22-90),
success path: prefixes the caller key with `{tenant_id}/` (line 45), puts
the object into the bucket under that full key, and reports the full key
back.  The bucket contents are modelled as the list of stored object
keys. -/
def upload_file (bucket_name : String) (body : List Char)
    (key tenant_id : String) (bucket : List String) :
    UploadResult × List String :=
  let full_key := tenant_id ++ "/" ++ key
  ({ bucket := bucket_name, key := full_key, size := body.length,
     url := "s3://" ++ bucket_name ++ "/" ++ full_key },
    full_key :: bucket)

/-- Translation of `S3Helper.list_files` (s3_helper.py, lines 124-163),
success path, restricted to the `key` field of the returned dicts:
`list_objects_v2` with prefix `{tenant_id}/{prefix}` returns the stored
keys having that prefix, and each is reported with the first occurrence of
`{tenant_id}/` removed (line 153). -/
def list_files (bucket : List String) (tenant_id pre : String) :
    List String :=
  let full_pre := tenant_id ++ "/" ++ pre
  (bucket.filter (fun k => strIsPrefixOf full_pre k)).map
    (fun k => replaceFirst k (tenant_id ++ "/"))

theorem isPrefixOf_append_self (l t : List Char) :
    l.isPrefixOf (l ++ t) = true := by
  induction l with
  | nil => simp [List.isPrefixOf]
  | cons c cs ih => simp [List.isPrefixOf, ih]

theorem removeFirst_append (pat rest : List Char) :
    removeFirst pat (pat ++ rest) = rest := by
  cases pat with
  | nil =>
    cases rest with
    | nil => rfl
    | cons c r => simp [removeFirst, List.isPrefixOf]
  | cons p ps =>
    have h : (p :: ps).isPrefixOf (p :: (ps ++ rest)) = true := by
      have h0 := isPrefixOf_append_self (p :: ps) rest
      rwa [List.cons_append] at h0
    show removeFirst (p :: ps) (p :: (ps ++ rest)) = rest
    rw [removeFirst, if_pos h, ← List.cons_append]
    exact List.drop_left (p :: ps) rest

theorem replaceFirst_append (pat rest : String) :
    replaceFirst (pat ++ rest) pat = rest := by
  unfold replaceFirst
  have hd : (pat ++ rest).data = pat.data ++ rest.data := rfl
  rw [hd, removeFirst_append]

theorem exists_append_of_isPrefixOf (l k : List Char)
    (h : l.isPrefixOf k = true) : ∃ t, k = l ++ t := by
  obtain ⟨t, ht⟩ := List.isPrefixOf_iff_prefix.mp h
  exact ⟨t, ht.symm⟩

theorem isPrefixOf_of_append_isPrefixOf (x y z : List Char)
    (h : (x ++ y).isPrefixOf z = true) : x.isPrefixOf z = true := by
  rw [List.isPrefixOf_iff_prefix] at h ⊢
  exact List.IsPrefix.trans ⟨y, rfl⟩ h

theorem list_files_mem_iff (bucket : List String) (tenant_id pre r : String) :
    r ∈ list_files bucket tenant_id pre ↔
      (tenant_id ++ "/" ++ r ∈ bucket ∧
        strIsPrefixOf (tenant_id ++ "/" ++ pre) (tenant_id ++ "/" ++ r) = true) := by
  unfold list_files
  simp only [List.mem_map, List.mem_filter]
  constructor
  · rintro ⟨k, ⟨hkmem, hkpre⟩, rfl⟩
    have h0 : ((tenant_id ++ "/").data ++ pre.data).isPrefixOf k.data = true := by
      simp only [strIsPrefixOf] at hkpre
      simpa using hkpre
    have hpat : (tenant_id ++ "/").data.isPrefixOf k.data = true :=
      isPrefixOf_of_append_isPrefixOf _ _ _ h0
    obtain ⟨t, ht⟩ := exists_append_of_isPrefixOf _ _ hpat
    have hk : k = (tenant_id ++ "/") ++ (⟨t⟩ : String) := by
      calc k = ⟨k.data⟩ := rfl
        _ = ⟨(tenant_id ++ "/").data ++ t⟩ := by rw [ht]
        _ = (tenant_id ++ "/") ++ (⟨t⟩ : String) := rfl
    have hr : replaceFirst k (tenant_id ++ "/") = (⟨t⟩ : String) := by
      rw [hk]
      exact replaceFirst_append (tenant_id ++ "/") (⟨t⟩ : String)
    rw [hr, ← hk]
    exact ⟨hkmem, hkpre⟩
  · rintro ⟨hmem, hpre⟩
    refine ⟨tenant_id ++ "/" ++ r, ⟨hmem, hpre⟩, ?_⟩
    exact replaceFirst_append (tenant_id ++ "/") r

/-- C7, counterexample.  The claim says no key returned by the listing has
a leading tenant segment.  Uploading the caller-supplied key `"t1/x.csv"`
under tenant `"t1"` stores `"t1/t1/x.csv"`; listing tenant `"t1"` with an
empty prefix then strips only the first `"t1/"` and returns `"t1/x.csv"`,
which still has a leading tenant segment. -/
theorem C7_counterexample :
    (upload_file "bkt" [] "t1/x.csv" "t1" []).1.key = "t1/t1/x.csv" ∧
    list_files ["t1/t1/x.csv"] "t1" "" = ["t1/x.csv"] ∧
    strIsPrefixOf "t1/" "t1/x.csv" = true := by decide

/-- C7, amended.  `upload_file` stores the object under
`{tenant_id}/{key}` and reports that full key; `list_files` returns
exactly those strings `r` such that `{tenant_id}/r` is a stored key
matching the `{tenant_id}/{prefix}` filter — that is, each listed key is
the stored key with the first occurrence of `{tenant_id}/` stripped, so a
returned key equals the caller-supplied upload key and carries a leading
tenant segment only when that caller-supplied key itself did. -/
theorem C7_upload_list_tenant_prefixing_amended (bucket_name : String)
    (body : List Char) (tenant_id key pre r : String) (bucket : List String) :
    (upload_file bucket_name body key tenant_id bucket).1.key
        = tenant_id ++ "/" ++ key ∧
    (upload_file bucket_name body key tenant_id bucket).2
        = (tenant_id ++ "/" ++ key) :: bucket ∧
    (r ∈ list_files bucket tenant_id pre ↔
      (tenant_id ++ "/" ++ r ∈ bucket ∧
        strIsPrefixOf (tenant_id ++ "/" ++ pre) (tenant_id ++ "/" ++ r) = true)) :=
  ⟨rfl, rfl, list_files_mem_iff bucket tenant_id pre r⟩

/-- Translation of the `/upload` route's key construction (main.py,
line 121): `s3_key = f"datasets/.../{dataset_type}/{file.filename}"`
with the tenant id between the first two slashes. -/
def route_s3_key (tenant_id dataset_type filename : String) : String :=
  "datasets/" ++ tenant_id ++ "/" ++ dataset_type ++ "/" ++ filename

/-- C8: the `/upload` route computes exactly the claimed key
`datasets/{tenant}/{dataset_type}/{filename}`, but the repository's
`S3Helper.upload_file` prefixes every caller key with `{tenant_id}/`, so
an upload of the route's key through it is stored under
`{tenant}/datasets/{tenant}/{dataset_type}/{filename}`, which differs
from the claimed key.  (As written, `main.py` cannot even reach storage:
it constructs `S3Helper(config)` and calls `upload_file(file, s3_key)`,
neither of which matches the repository's `S3Helper` signatures.) -/
theorem C8_upload_route_key_mismatch :
    route_s3_key "t1" "interactions" "f.csv"
        = "datasets/t1/interactions/f.csv" ∧
    (upload_file "bkt" [] (route_s3_key "t1" "interactions" "f.csv")
        "t1" []).1.key = "t1/datasets/t1/interactions/f.csv" ∧
    "t1/datasets/t1/interactions/f.csv" ≠ "datasets/t1/interactions/f.csv" := by
  decide

/-! ## Messaging adapter: personalized sends (`pinpoint_helper.py`, lines 320-424) -/

/-- A recommendation item as consumed by
`PinpointHelper.send_personalized_recommendations`: the dict keys the
method reads, each optional because it uses `rec.get(..., default)`. -/
structure RecItem where
  title : Option String
  score : ℚ
  description : Option String
  url : Option String
deriving DecidableEq

/-- One rendered recommendation block of the email HTML (lines 355-363),
with the `dict.get` defaults applied (`'Recommended Item'`,
`'Great product for you!'`, `'#'`); the `:.2f` score formatting is kept
as the raw score. -/
structure RecBlock where
  title : String
  score : ℚ
  description : String
  url : String
deriving DecidableEq

/-- Rendering of one recommendation into its email HTML block. -/
def renderRec (rec : RecItem) : RecBlock :=
  { title := rec.title.getD "Recommended Item"
    score := rec.score
    description := rec.description.getD "Great product for you!"
    url := rec.url.getD "#" }

/-- The message payload handed to the network call `send_messages`: for
email, the subject and the rendered blocks of the HTML body (the loop of
line 355 iterates over `recommendations[:5]`); for SMS, the recommendation
count mentioned in the text and the headline title
(`recommendations[0].get('title', 'our top pick')` when the list is
non-empty, lines 381-384). -/
inductive MessageConfig where
  | email (subject : String) (blocks : List RecBlock)
  | sms (mentioned_count : Nat) (first_title : Option String)
deriving DecidableEq

/-- The dict returned by `send_personalized_recommendations` on success. -/
structure SendResult where
  user_id : String
  tenant_id : String
  channel : String
  recommendations_count : Nat
  status : String
deriving DecidableEq

/-- Translation of `PinpointHelper.send_personalized_recommendations`
(pinpoint_helper.py, lines 320-424).  The second component is the list of
`send_messages` network calls issued during the run.  For an unsupported
channel the `else` branch (line 394) raises
`ValueError(f"Unsupported channel: ...")` before `send_messages` is
reached, so no network call is issued; for email and SMS the payload is
built and one `send_messages` call is made. -/
def send_personalized_recommendations (tenant_id user_id : String)
    (recommendations : List RecItem) (channel : String) :
    Except String SendResult × List MessageConfig :=
  if channel = "email" then
    let cfg := MessageConfig.email "Personalized Recommendations Just for You!"
      ((recommendations.take 5).map renderRec)
    (.ok ⟨user_id, tenant_id, channel, recommendations.length, "SENT"⟩, [cfg])
  else if channel = "sms" then
    let cfg := MessageConfig.sms recommendations.length
      (recommendations.head?.map (fun r => r.title.getD "our top pick"))
    (.ok ⟨user_id, tenant_id, channel, recommendations.length, "SENT"⟩, [cfg])
  else
    (.error ("Unsupported channel: " ++ channel), [])

/-- C9: for every channel other than `"email"` and `"sms"`,
`send_personalized_recommendations` fails fast with the descriptive
condition `Unsupported channel: ...` and issues no network call; and every
email payload it sends lists at most the top 5 recommendations (the
rendered blocks are exactly `recommendations[:5]`). -/
theorem C9_send_personalized_recommendations (tenant_id user_id channel : String)
    (recommendations : List RecItem) :
    (channel ≠ "email" → channel ≠ "sms" →
      send_personalized_recommendations tenant_id user_id recommendations channel
        = (Except.error ("Unsupported channel: " ++ channel), [])) ∧
    (∀ subject blocks,
      MessageConfig.email subject blocks ∈
        (send_personalized_recommendations tenant_id user_id
          recommendations channel).2 →
      blocks.length ≤ 5 ∧ blocks = (recommendations.take 5).map renderRec) := by
  constructor
  · intro h1 h2
    simp [send_personalized_recommendations, h1, h2]
  · intro subject blocks hmem
    by_cases h1 : channel = "email"
    · simp only [send_personalized_recommendations, h1, if_true,
        List.mem_singleton] at hmem
      have hb : blocks = (recommendations.take 5).map renderRec := by
        cases hmem
        rfl
      constructor
      · rw [hb, List.length_map, List.length_take]
        exact Nat.min_le_left 5 recommendations.length
      · exact hb
    · by_cases h2 : channel = "sms"
      · simp [send_personalized_recommendations, h1, h2] at hmem
      · simp [send_personalized_recommendations, h1, h2] at hmem

/-- C9, witness: the unsupported channel `"push"` fails fast with the
descriptive error and an empty list of network calls. -/
theorem C9_witness :
    send_personalized_recommendations "t" "u" [] "push"
      = (Except.error ("Unsupported channel: " ++ "push"), []) :=
  (C9_send_personalized_recommendations "t" "u" "push" []).1
    (by decide) (by decide)
